import Mathlib

/-!
Verification of the Open Food Facts snack scraper (`FoodFactsScrap.py`).

The Python module is embedded shallowly:

* pure text-processing helpers (`_parse_float`, `_parse_energy`,
  `_normalize_status`, the regular-expression searches) become Lean
  functions over `String` / `List Char`; Python floats are modelled by `ℚ`
  (all values arising here are decimal literals, hence exact);
* the BeautifulSoup document is modelled by a small HTML tree (`HNode`)
  storing, per element, its tag, attributes and the result of `get_text`;
  the CSS/`find` queries used by the scraper are implemented over that tree;
* network access (`session.get`) is an oracle parameter: the orchestrator
  takes the listing fetcher and the page fetcher as functions returning
  `Except`;
* code that can raise returns `Except String`, and the filesystem touched by
  `save_to_csv` is a map from paths to file lines.
-/

set_option maxRecDepth 100000

namespace FoodFacts

/-! ## Characters and basic string helpers -/

/-- Python `str.lower()` (the scraped text is ASCII, where `Char.toLower`
agrees with Python). -/
def strLower (s : String) : String := String.mk (s.data.map Char.toLower)

/-- Lower-case a character list. -/
def lowerL (l : List Char) : List Char := l.map Char.toLower

/-- Substring test on character lists: does `needle` occur inside the list? -/
def containsSubL (needle : List Char) : List Char → Bool
  | [] => needle.isEmpty
  | c :: rest => needle.isPrefixOf (c :: rest) || containsSubL needle rest

/-- Python's `needle in hay` substring test. -/
def containsSub (needle hay : String) : Bool := containsSubL needle.data hay.data

/-- Longest leading run of characters satisfying `p`, plus the remainder.
Models a greedy character-class repetition such as `[0-9]+` or `\s*`. -/
def takeWhileB (p : Char → Bool) : List Char → List Char × List Char
  | [] => ([], [])
  | c :: r =>
    if p c then ((c :: (takeWhileB p r).1), (takeWhileB p r).2)
    else ([], c :: r)

/-- Greedy `[0-9]+` / `[0-9]*` run. -/
def takeDigits (l : List Char) : List Char × List Char := takeWhileB Char.isDigit l

/-- Numeric value of a digit run (most significant first). -/
def digitsVal (l : List Char) : Nat := l.foldl (fun a c => 10 * a + (c.toNat - 48)) 0

/-! ## `_parse_float` (FoodFactsScrap.py lines 162-171)

`re.search(r"([-+]?[0-9]+(?:[.,][0-9]+)?)", text)` followed by
`float(group.replace(",", "."))`. The regex is implemented as a leftmost
scan; at each start position the optional sign, the greedy integer part and
the optional greedy fractional part are matched exactly as the backtracking
engine would. -/

/-- Match `[0-9]+(?:[.,][0-9]+)?` at the head of the list, returning the
matched characters. The greedy digit runs never need to backtrack: a
shorter run would leave a digit in front of `[.,]` or of the end. -/
def matchUnsignedNum (l : List Char) : Option (List Char) :=
  let ds := (takeDigits l).1
  let r := (takeDigits l).2
  if ds.isEmpty then none
  else
    match r with
    | [] => some ds
    | sep :: r2 =>
      if sep == '.' || sep == ',' then
        let es := (takeDigits r2).1
        if es.isEmpty then some ds else some (ds ++ sep :: es)
      else some ds

/-- Match `[-+]?[0-9]+(?:[.,][0-9]+)?` at the head of the list. If a sign is
present but no digits follow it, backtracking to the empty sign also fails
(the sign character itself is not a digit), hence `none`. -/
def matchFloatAt : List Char → Option (List Char)
  | [] => none
  | c :: r =>
    if c == '+' || c == '-' then
      match matchUnsignedNum r with
      | some g => some (c :: g)
      | none => none
    else matchUnsignedNum (c :: r)

/-- `re.search` for the float pattern: try each start position left to
right. -/
def floatSearch : List Char → Option (List Char)
  | [] => none
  | c :: r =>
    match matchFloatAt (c :: r) with
    | some g => some g
    | none => floatSearch r

/-- The `.replace(",", ".")` step applied character-wise. -/
def commaToDot (c : Char) : Char := if c == ',' then '.' else c

/-- Python `float()` restricted to the strings produced by the numeric
regexes above (an optional sign, a digit run, an optional `.` and a digit
run); on exactly those strings this agrees with `float`. -/
def pyFloatUnsigned (l : List Char) : Option ℚ :=
  let ds := (takeDigits l).1
  let r := (takeDigits l).2
  if ds.isEmpty then none
  else
    match r with
    | [] => some (digitsVal ds : ℚ)
    | c :: r2 =>
      if c == '.' then
        let es := (takeDigits r2).1
        if es.isEmpty || !(takeDigits r2).2.isEmpty then none
        else some ((digitsVal ds : ℚ) + (digitsVal es : ℚ) / 10 ^ es.length)
      else none

/-- Python `float()` with the optional leading sign. -/
def pyFloat : List Char → Option ℚ
  | [] => none
  | c :: r =>
    if c == '-' then (pyFloatUnsigned r).map (fun q => -q)
    else if c == '+' then pyFloatUnsigned r
    else pyFloatUnsigned (c :: r)

/-- `_parse_float` (lines 162-171): `None` for empty text, else the first
regex match converted with comma normalised to a decimal point. -/
def parse_float (text : String) : Option ℚ :=
  if text.data.isEmpty then none
  else
    match floatSearch text.data with
    | none => none
    | some g => pyFloat (g.map commaToDot)

/-! ## `_parse_energy` (lines 173-189)

Two independent searches over the same text:
`([0-9][0-9.,]*)\s*k[jJ]` and, case-insensitively,
`([0-9][0-9.,]*)\s*kcal`; each captured group is fed to `_parse_float`. -/

/-- The `[0-9.,]` character class. -/
def isNumPunct (c : Char) : Bool := c.isDigit || c == '.' || c == ','

/-- Does `\s*k[jJ]` match at this point? The whitespace run cannot be
shortened usefully (a whitespace character is never `k`). -/
def kjAfter (rest : List Char) : Bool :=
  match (takeWhileB Char.isWhitespace rest).2 with
  | 'k' :: j :: _ => j == 'j' || j == 'J'
  | _ => false

/-- Does `\s*kcal` (case-insensitive) match at this point? -/
def kcalAfter (rest : List Char) : Bool :=
  match (takeWhileB Char.isWhitespace rest).2 with
  | a :: b :: c :: d :: _ =>
    a.toLower == 'k' && b.toLower == 'c' && c.toLower == 'a' && d.toLower == 'l'
  | _ => false

/-- Backtrack the greedy `[0-9.,]*` run, longest first: `revRun` holds the
still-included part of the run reversed; characters dropped from its end are
pushed back onto `rest`. -/
def numShrink (after : List Char → Bool) (c : Char) :
    List Char → List Char → Option (List Char)
  | [], rest => if after rest then some [c] else none
  | x :: xs, rest =>
    if after rest then some (c :: (x :: xs).reverse)
    else numShrink after c xs (x :: rest)

/-- Match `([0-9][0-9.,]*)` followed by `after` at the head of the list. -/
def unitNumMatchAt (after : List Char → Bool) : List Char → Option (List Char)
  | [] => none
  | c :: r =>
    if c.isDigit then
      numShrink after c (takeWhileB isNumPunct r).1.reverse (takeWhileB isNumPunct r).2
    else none

/-- `re.search` for a number followed by a unit suffix. -/
def unitNumSearch (after : List Char → Bool) : List Char → Option (List Char)
  | [] => none
  | c :: r =>
    match unitNumMatchAt after (c :: r) with
    | some g => some g
    | none => unitNumSearch after r

/-- `_parse_energy` (lines 173-189). Returns the `(kJ, kcal)` pair. -/
def parse_energy (text : String) : Option ℚ × Option ℚ :=
  if text.data.isEmpty then (none, none)
  else
    let kj := match unitNumSearch kjAfter text.data with
      | some g => parse_float (String.mk g)
      | none => none
    let kcal := match unitNumSearch kcalAfter text.data with
      | some g => parse_float (String.mk g)
      | none => none
    (kj, kcal)

/-! ## More string helpers (structural versions of Python `str` methods) -/

/-- Python `str.strip()` on a character list. -/
def stripL (l : List Char) : List Char :=
  ((l.dropWhile Char.isWhitespace).reverse.dropWhile Char.isWhitespace).reverse

/-- Python `str.strip()`. -/
def pyStrip (s : String) : String := String.mk (stripL s.data)

/-- Python `str.startswith`. -/
def startsWithS (s pre : String) : Bool := pre.data.isPrefixOf s.data

/-- Python `str.replace(pat, rep)` (all occurrences), fuelled by the input
length so the recursion is structural; `fuel = length` always suffices
because every step consumes at least one character. -/
def replaceAllF : Nat → List Char → List Char → List Char → List Char
  | 0, _, _, l => l
  | _ + 1, _, _, [] => []
  | f + 1, pat, rep, c :: r =>
    if pat.isPrefixOf (c :: r) && !pat.isEmpty then
      rep ++ replaceAllF f pat rep ((c :: r).drop pat.length)
    else c :: replaceAllF f pat rep r

/-- Python `str.replace(pat, rep)`. -/
def replaceAll (s pat rep : String) : String :=
  String.mk (replaceAllF s.data.length pat.data rep.data s.data)

/-- Split a character list on a single space (Python `"x y".split(" ")`). -/
def splitOnSpaceL : List Char → List (List Char)
  | [] => [[]]
  | c :: r =>
    let rest := splitOnSpaceL r
    if c == ' ' then [] :: rest
    else
      match rest with
      | [] => [[c]]
      | g :: gs => (c :: g) :: gs

/-- Join character lists with a separator (Python `sep.join`). -/
def intercalateL (sep : List Char) : List (List Char) → List Char
  | [] => []
  | [x] => x
  | x :: y :: r => x ++ sep ++ intercalateL sep (y :: r)

/-- Greedy drop of a leading `\s*` run. -/
def dropWs (l : List Char) : List Char := (takeWhileB Char.isWhitespace l).2

/-- First `some` in a list of options: models a Python loop that returns on
the first hit and otherwise falls through. -/
def firstSome {α : Type} : List (Option α) → Option α
  | [] => none
  | some a :: _ => some a
  | none :: r => firstSome r

/-- Remainder after the first occurrence of a literal (None when the literal
does not occur). Models scanning `re.search` for a pattern that starts with
this literal. -/
def afterFirstLit (lit : List Char) : List Char → Option (List Char)
  | [] => if lit.isEmpty then some [] else none
  | c :: r =>
    if lit.isPrefixOf (c :: r) then some ((c :: r).drop lit.length)
    else afterFirstLit lit r

/-- Case-insensitive literal at the head: `lit` is given lower-case; returns
the remainder on match. -/
def stripCiLit (lit : List Char) (l : List Char) : Option (List Char) :=
  if (l.take lit.length).map Char.toLower == lit then some (l.drop lit.length)
  else none

/-! ## `_normalize_status` (lines 353-363) -/

/-- `_normalize_status`: ordered substring tests on the trimmed, lowered
text; unrecognised text falls through as the trimmed original. -/
def normalize_status (text : String) : String :=
  let t := strLower (pyStrip text)
  if containsSub "unknown" t then "unknown"
  else if containsSub "non-vegetarian" t || containsSub "not vegetarian" t then "no"
  else if containsSub "non-vegan" t || containsSub "not vegan" t then "no"
  else if containsSub "vegetarian" t || containsSub "vegan" t then "yes"
  else pyStrip text

/-! ## The document model

A parsed page is a tree of elements. Each node stores its tag, its
attributes, the result of `get_text(" ", strip=True)` on it (denormalised:
the scraper only ever reads whole-element text), and its children.
`descF` is fuelled by the nesting depth so that all definitions stay
structurally recursive; `domDepth` exceeds the depth of any document built
here, and the theorems quantifying over arbitrary documents do not depend
on the tree being fully explored. -/

inductive HNode : Type where
  | node (tag : String) (attrs : List (String × String)) (text : String)
      (children : List HNode)

def HNode.tagOf : HNode → String
  | .node t _ _ _ => t

def HNode.attrsOf : HNode → List (String × String)
  | .node _ a _ _ => a

/-- The element's `get_text(" ", strip=True)` text. -/
def HNode.textOf : HNode → String
  | .node _ _ s _ => s

def HNode.childrenOf : HNode → List HNode
  | .node _ _ _ c => c

/-- Pre-order list of proper descendants, bounded by `fuel` levels. -/
def descF : Nat → HNode → List HNode
  | 0, _ => []
  | fuel + 1, n => ((n.childrenOf).map (fun c => c :: descF fuel c)).flatten

/-- Pre-order list of (parent, child) edges, bounded by `fuel` levels. -/
def parentPairsF : Nat → HNode → List (HNode × HNode)
  | 0, _ => []
  | fuel + 1, n =>
    ((n.childrenOf).map (fun c => ((n, c)) :: parentPairsF fuel c)).flatten

def domDepth : Nat := 64

/-- All proper descendants of a node in document order (what BeautifulSoup's
`find`/`find_all`/`select` traverse). -/
def HNode.desc (n : HNode) : List HNode := descF domDepth n

/-- All (parent, child) edges in document order. -/
def HNode.parentPairs (n : HNode) : List (HNode × HNode) :=
  parentPairsF domDepth n

/-- `element.get(attr)`. -/
def getAttr (n : HNode) (k : String) : Option String :=
  ((n.attrsOf).find? (fun p => p.1 == k)).map (fun p => p.2)

def hasAttrVal (n : HNode) (k v : String) : Bool :=
  match getAttr n k with
  | some w => w == v
  | none => false

/-- CSS `#i` lookup (`select_one("#i")`). -/
def findById (root : HNode) (i : String) : Option HNode :=
  (root.desc).find? (fun n => hasAttrVal n "id" i)

/-- `find_all(tag)`. -/
def findAllTag (root : HNode) (t : String) : List HNode :=
  (root.desc).filter (fun n => n.tagOf == t)

/-- `find(tag)`. -/
def findTag (root : HNode) (t : String) : Option HNode :=
  (root.desc).find? (fun n => n.tagOf == t)

/-- The whitespace-separated words of the `class` attribute. -/
def classList (n : HNode) : List String :=
  match getAttr n "class" with
  | some s => (splitOnSpaceL s.data).map String.mk
  | none => []

/-- CSS `.c` lookup (`select(".c")`). -/
def findAllClass (root : HNode) (c : String) : List HNode :=
  (root.desc).filter (fun n => (classList n).contains c)

/-- `_get_text_or_none` (lines 154-159) applied to an element that was
already found: `get_text` result `or None`. -/
def textOrNone (n : HNode) : Option String :=
  if n.textOf == "" then none else some n.textOf

/-! ## Field parsers over the document -/

/-- `_parse_field_span` (lines 201-202): `_get_text_or_none(soup, "#<id>_value")`. -/
def parse_field_span (soup : HNode) (fieldId : String) : Option String :=
  match findById soup (fieldId ++ "_value") with
  | none => none
  | some el => textOrNone el

/-- `_parse_product_name` (lines 192-194):
`soup.select_one("h1[itemprop='name']") or soup.find("h1")`, then its text. -/
def parse_product_name (soup : HNode) : Option String :=
  let h1 :=
    match (findAllTag soup "h1").find? (fun n => hasAttrVal n "itemprop" "name") with
    | some n => some n
    | none => findTag soup "h1"
  h1.map (fun n => n.textOf)

/-- `_parse_barcode` (lines 197-199). -/
def parse_barcode (soup : HNode) : Option String :=
  let sp :=
    match findById soup "barcode" with
    | some n => some n
    | none => (findAllTag soup "span").find? (fun n => hasAttrVal n "itemprop" "gtin13")
  sp.map (fun n => n.textOf)

/-- The `text.replace(label, "", 1).strip() or None` step of the
ingredients block (the text is known to start with `label`). -/
def labelTail (label t : String) : Option String :=
  let r := pyStrip (String.mk (t.data.drop label.data.length))
  if r == "" then none else some r

/-- The loop over `panel_texts[1:]` of `_parse_ingredients_block`
(lines 219-224): later matches overwrite earlier ones. -/
def ingredientsFold (divs : List HNode) : Option String × Option String :=
  divs.foldl
    (fun acc d =>
      let t := d.textOf
      if startsWithS t "Allergens:" then (labelTail "Allergens:" t, acc.2)
      else if startsWithS t "Traces:" then (acc.1, labelTail "Traces:" t)
      else acc)
    (none, none)

/-- `_parse_ingredients_block` (lines 204-226): returns
`(ingredients_text, allergens, traces)`. -/
def parse_ingredients_block (soup : HNode) :
    Option String × Option String × Option String :=
  match findById soup "panel_ingredients_content" with
  | none => (none, none, none)
  | some panel =>
    let panelTexts := findAllClass panel "panel_text"
    let ingredients_text :=
      match panelTexts with
      | [] => none
      | d0 :: _ => if d0.textOf == "" then none else some d0.textOf
    let at2 := ingredientsFold (panelTexts.drop 1)
    (ingredients_text, at2.1, at2.2)

/-! ## The product record (lines 28-76)

All fields default to absent except `url`; Python floats are `ℚ`,
`nova_group` is an `Int`. -/

structure ProductRecord where
  url : String
  product_name : Option String := none
  barcode : Option String := none
  brand : Option String := none
  quantity : Option String := none
  serving_size : Option String := none
  nutriscore_letter : Option String := none
  nova_group : Option Int := none
  ingredients_text : Option String := none
  allergens : Option String := none
  traces : Option String := none
  energy_kj_100g : Option ℚ := none
  energy_kcal_100g : Option ℚ := none
  fat_100g : Option ℚ := none
  saturated_fat_100g : Option ℚ := none
  carbohydrates_100g : Option ℚ := none
  sugars_100g : Option ℚ := none
  fiber_100g : Option ℚ := none
  proteins_100g : Option ℚ := none
  salt_100g : Option ℚ := none
  main_image_url : Option String := none
  categories : Option String := none
  contains_palm_oil : Option Bool := none
  vegetarian_status : Option String := none
  vegan_status : Option String := none
  nutrient_level_fat : Option String := none
  nutrient_level_saturated_fat : Option String := none
  nutrient_level_sugars : Option String := none
  nutrient_level_salt : Option String := none
  additives : List String := []
  packaging : Option String := none
  stores : Option String := none
  countries : Option String := none
  origins : Option String := none
  manufacturing_places : Option String := none
  ecoscore_grade : Option String := none
  ecoscore_score : Option ℚ := none
  carbon_footprint_100g : Option ℚ := none

/-! ## `_parse_nutrition_table` (lines 228-258) -/

/-- The body of the row loop: rows with fewer than two cells are skipped;
the lower-cased first-cell text is dispatched through the `elif` chain,
where `fat` and `carbohydrates` are exact comparisons and the rest are
substring tests. -/
def processNutritionRow (record : ProductRecord) (row : HNode) : ProductRecord :=
  match findAllTag row "td" with
  | c0 :: c1 :: _ =>
    let label := strLower c0.textOf
    let v := c1.textOf
    if containsSub "energy" label then
      { record with
        energy_kj_100g := (parse_energy v).1
        energy_kcal_100g := (parse_energy v).2 }
    else if label == "fat" then { record with fat_100g := parse_float v }
    else if containsSub "saturated fat" label then
      { record with saturated_fat_100g := parse_float v }
    else if label == "carbohydrates" then
      { record with carbohydrates_100g := parse_float v }
    else if containsSub "sugars" label then { record with sugars_100g := parse_float v }
    else if containsSub "fiber" label then { record with fiber_100g := parse_float v }
    else if containsSub "proteins" label || label == "protein" then
      { record with proteins_100g := parse_float v }
    else if containsSub "salt" label then { record with salt_100g := parse_float v }
    else record
  | _ => record

/-- `_parse_nutrition_table`: find the table by `aria-label`, iterate the
rows of its `tbody` (or of the table itself). -/
def parse_nutrition_table (soup : HNode) (record : ProductRecord) : ProductRecord :=
  match (soup.desc).find?
      (fun n => n.tagOf == "table" && hasAttrVal n "aria-label" "Nutrition facts") with
  | none => record
  | some table =>
    let tbody := (findTag table "tbody").getD table
    (findAllTag tbody "tr").foldl processNutritionRow record

/-! ## `_parse_serving_size` (lines 261-268) -/

/-- The `re.sub(r"^Serving size:\s*", "", t)` step. -/
def stripServingLabel (t : String) : String :=
  if startsWithS t "Serving size:" then
    String.mk (dropWs (t.data.drop ("Serving size:".data.length)))
  else t

/-- `_parse_serving_size`: the first `strong` whose text starts with
"Serving size"; its parent's text with the label stripped, `or None`. -/
def parse_serving_size (soup : HNode) : Option String :=
  match (soup.parentPairs).find?
      (fun pc => pc.2.tagOf == "strong" && startsWithS pc.2.textOf "Serving size") with
  | none => none
  | some pc =>
    let cleaned := pyStrip (stripServingLabel pc.1.textOf)
    if cleaned == "" then none else some cleaned

/-! ## `_parse_nutriscore_letter` (lines 271-286) -/

def isUpperAE (c : Char) : Bool :=
  c == 'A' || c == 'B' || c == 'C' || c == 'D' || c == 'E'

/-- `re.search(r"Nutri-Score[^A-E]*([A-E])", t)`: the first `A`-`E`
character after the first occurrence of the literal (if the first
occurrence is not followed by any such character, no later occurrence can
be either, so the scan over later start positions also fails). -/
def nutriScoreLetterOf (t : String) : Option Char :=
  match afterFirstLit ("Nutri-Score".data) t.data with
  | none => none
  | some rest => rest.find? isUpperAE

/-- The `for t in candidates` loop: return the group of the first text with
a regex match. -/
def firstNutriLetter : List String → Option String
  | [] => none
  | t :: r =>
    match nutriScoreLetterOf t with
    | some c => some (String.mk [c])
    | none => firstNutriLetter r

/-- `_parse_nutriscore_letter`: candidate texts are the `h4` texts
containing "Nutri-Score", else the `p` texts containing it. -/
def parse_nutriscore_letter (soup : HNode) : Option String :=
  let h4c := ((findAllTag soup "h4").map (fun n => n.textOf)).filter
      (fun t => containsSub "Nutri-Score" t)
  let candidates :=
    if h4c.isEmpty then
      ((findAllTag soup "p").map (fun n => n.textOf)).filter
        (fun t => containsSub "Nutri-Score" t)
    else h4c
  firstNutriLetter candidates

/-! ## `_parse_nova_group` (lines 289-306) -/

/-- After the literal `product is in the`: `\s+(\d)\s*-`. -/
def novaAfterP (rest : List Char) : Option Char :=
  let ws := takeWhileB Char.isWhitespace rest
  if ws.1.isEmpty then none
  else
    match ws.2 with
    | d :: r2 =>
      if d.isDigit then
        match dropWs r2 with
        | '-' :: _ => some d
        | _ => none
      else none
    | [] => none

/-- `re.search(r"product is in the\s+(\d)\s*-", t)`: scan occurrences of the
literal until the tail pattern matches. -/
def novaSearchP : List Char → Option Char
  | [] => none
  | c :: r =>
    if ("product is in the".data).isPrefixOf (c :: r) then
      match novaAfterP ((c :: r).drop ("product is in the".data.length)) with
      | some d => some d
      | none => novaSearchP r
    else novaSearchP r

/-- `nova\s*group\s*(\d)` at the head of an (already lowered) list. -/
def novaH4At (l : List Char) : Option Char :=
  if ("nova".data).isPrefixOf l then
    let r1 := dropWs (l.drop 4)
    if ("group".data).isPrefixOf r1 then
      match dropWs (r1.drop 5) with
      | d :: _ => if d.isDigit then some d else none
      | [] => none
    else none
  else none

/-- `re.search(r"nova\s*group\s*(\d)", t, re.I)` over the lowered text. -/
def novaSearchH4 : List Char → Option Char
  | [] => none
  | c :: r =>
    match novaH4At (c :: r) with
    | some d => some d
    | none => novaSearchH4 r

def charDigitVal (c : Char) : Int := (c.toNat - 48 : Nat)

/-- `_parse_nova_group`: paragraph pattern first, heading pattern as
fallback (`int()` of a single digit never fails). -/
def parse_nova_group (soup : HNode) : Option Int :=
  match firstSome ((findAllTag soup "p").map (fun n => novaSearchP n.textOf.data)) with
  | some d => some (charDigitVal d)
  | none =>
    match firstSome ((findAllTag soup "h4").map
        (fun n => novaSearchH4 (lowerL n.textOf.data))) with
    | some d => some (charDigitVal d)
    | none => none

/-! ## `_parse_main_image_url` (lines 309-327) -/

/-- The trailing `img.product_image` fallback. -/
def imgFallback (soup : HNode) : Option String :=
  match (soup.desc).find?
      (fun n => n.tagOf == "img" && (classList n).contains "product_image") with
  | none => none
  | some img =>
    match getAttr img "src" with
    | none => none
    | some src =>
      if src == "" then none
      else if startsWithS src "//" then some ("https:" ++ src)
      else if startsWithS src "/" then some ("https://world.openfoodfacts.org" ++ src)
      else some src

/-- `_parse_main_image_url`: the first `og:image` meta whose content
mentions `/images/products/`; else the last such meta's content if truthy;
else the image fallback. -/
def parse_main_image_url (soup : HNode) : Option String :=
  let metas := (findAllTag soup "meta").filter
      (fun n => hasAttrVal n "property" "og:image")
  let hit := firstSome (metas.map (fun m =>
    match getAttr m "content" with
    | some u => if u != "" && containsSub "/images/products/" u then some u else none
    | none => none))
  match hit with
  | some u => some u
  | none =>
    match metas.getLast? with
    | some m =>
      match getAttr m "content" with
      | some u => if u != "" then some u else imgFallback soup
      | none => imgFallback soup
    | none => imgFallback soup

/-! ## `_parse_categories` (lines 330-342) -/

def parse_categories (soup : HNode) : Option String :=
  match findById soup "field_categories_value" with
  | none => none
  | some container =>
    let names := ((findAllTag container "a").map (fun a => a.textOf)).filter
        (fun t => t != "")
    if names.isEmpty then
      if container.textOf == "" then none else some container.textOf
    else some (String.mk (intercalateL (", ".data) (names.map String.data)))

/-! ## `_parse_palm_oil_flag` (lines 345-351) -/

def parse_palm_oil_flag (soup : HNode) : Option Bool :=
  if (findAllClass soup "panel_text").any
      (fun d => containsSub "ingredients that contain palm oil" (strLower d.textOf))
  then some true else none

/-! ## `_parse_veg_flags` (lines 366-399) -/

/-- `select_one("#<i> h4")`: the first `h4` descendant of the element with
that id. -/
def idDescH4 (soup : HNode) (i : String) : Option HNode :=
  match findById soup i with
  | none => none
  | some p => findTag p "h4"

/-- After a `vegan:`/`vegetarian:` literal: `\s*(yes|no|unknown)`; returns
the matched whitespace and word (part of `group(0)`). -/
def statusWordAfter (rest : List Char) : Option (List Char) :=
  let ws := takeWhileB Char.isWhitespace rest
  if ("yes".data).isPrefixOf ws.2 then some (ws.1 ++ "yes".data)
  else if ("no".data).isPrefixOf ws.2 then some (ws.1 ++ "no".data)
  else if ("unknown".data).isPrefixOf ws.2 then some (ws.1 ++ "unknown".data)
  else none

/-- `re.search(lit + r"\s*(yes|no|unknown)", text)` returning `group(0)`. -/
def statusSearch (lit : List Char) : List Char → Option (List Char)
  | [] => none
  | c :: r =>
    if lit.isPrefixOf (c :: r) then
      match statusWordAfter ((c :: r).drop lit.length) with
      | some w => some (lit ++ w)
      | none => statusSearch lit r
    else statusSearch lit r

/-- The heading-scan fallback of `_parse_veg_flags` (lines 378-384): only
entered when a status is still unresolved; each heading can fill at most
one still-empty slot. -/
def vegFallbackH4 (h4s : List HNode) (veg vegan : Option String) :
    Option String × Option String :=
  if veg.isNone || vegan.isNone then
    h4s.foldl
      (fun acc h =>
        let t := h.textOf
        if containsSub "Vegetarian status" t && acc.1.isNone then
          (some (normalize_status (replaceAll t "Vegetarian status" "")), acc.2)
        else if containsSub "Vegan status" t && acc.2.isNone then
          (acc.1, some (normalize_status (replaceAll t "Vegan status" "")))
        else acc)
      (veg, vegan)
  else (veg, vegan)

/-- The ordered-ingredients-list fallback of `_parse_veg_flags`
(lines 386-397). -/
def vegOrderedFallback (soup : HNode) (veg vegan : Option String) :
    Option String × Option String :=
  if veg.isNone || vegan.isNone then
    match findById soup "ordered_ingredients_list" with
    | none => (veg, vegan)
    | some ordered =>
      let text := lowerL ordered.textOf.data
      let vegan2 :=
        if vegan.isNone then
          match statusSearch ("vegan:".data) text with
          | some g => some (normalize_status (String.mk g))
          | none => none
        else vegan
      let veg2 :=
        if veg.isNone then
          match statusSearch ("vegetarian:".data) text with
          | some g => some (normalize_status (String.mk g))
          | none => none
        else veg
      (veg2, vegan2)
  else (veg, vegan)

/-- `_parse_veg_flags` (lines 366-399): returns `(vegetarian, vegan)`. -/
def parse_veg_flags (soup : HNode) : Option String × Option String :=
  let vegan0 := (idDescH4 soup "panel_ingredients_analysis_en-vegan").map
      (fun h => normalize_status h.textOf)
  let veg0 := (idDescH4 soup "panel_ingredients_analysis_en-vegetarian").map
      (fun h => normalize_status h.textOf)
  let step1 := vegFallbackH4 (findAllTag soup "h4") veg0 vegan0
  vegOrderedFallback soup step1.1 step1.2

/-! ## `_parse_nutrient_levels` (lines 402-448) -/

structure NutrientLevels where
  fat : Option String
  saturated_fat : Option String
  sugars : Option String
  salt : Option String

/-- The high/moderate/low classification of one accordion heading; text
without any of the three leaves the slot unchanged. -/
def levelOf (text : String) (cur : Option String) : Option String :=
  if containsSub "high" text then some "high"
  else if containsSub "moderate" text then some "moderate"
  else if containsSub "low" text then some "low"
  else cur

def parse_nutrient_levels (soup : HNode) : NutrientLevels :=
  match findById soup "panel_nutrient_levels_content" with
  | none => ⟨none, none, none, none⟩
  | some panel =>
    let lis := (panel.desc).filter
        (fun n => n.tagOf == "li" && (classList n).contains "accordion-navigation")
    lis.foldl
      (fun acc li =>
        match findTag li "h4" with
        | none => acc
        | some h4 =>
          let text := strLower h4.textOf
          if startsWithS text "fat " then { acc with fat := levelOf text acc.fat }
          else if startsWithS text "saturated fat" then
            { acc with saturated_fat := levelOf text acc.saturated_fat }
          else if startsWithS text "sugars" then
            { acc with sugars := levelOf text acc.sugars }
          else if startsWithS text "salt" then
            { acc with salt := levelOf text acc.salt }
          else acc)
      ⟨none, none, none, none⟩

/-! ## `_parse_additives` (lines 451-460) -/

def parse_additives (soup : HNode) : List String :=
  match findById soup "panel_additives_content" with
  | none => []
  | some panel =>
    ((findAllTag panel "h4").map (fun h => h.textOf)).filter (fun t => t != "")

/-! ## `_parse_ecoscore_and_carbon` (lines 463-522) -/

def isLetterAE (c : Char) : Bool :=
  let d := c.toLower
  d == 'a' || d == 'b' || d == 'c' || d == 'd' || d == 'e'

/-- A word character for `\b`. -/
def wordChar (c : Char) : Bool := c.isAlphanum || c == '_'

/-- `[0-9]+(?:[.,][0-9]+)?` at the head, followed by a continuation
satisfying `cond`; returns the number group. The greedy digit runs cannot
usefully backtrack (shortening one leaves a digit in front of a pattern
that cannot start with a digit), but the optional fractional group
backtracks to absent when the continuation fails after it. -/
def numThenCond (cond : List Char → Bool) (l : List Char) : Option (List Char) :=
  let ds := (takeDigits l).1
  let r := (takeDigits l).2
  if ds.isEmpty then none
  else
    match r with
    | sep :: r2 =>
      if sep == '.' || sep == ',' then
        let es := (takeDigits r2).1
        let r3 := (takeDigits r2).2
        if es.isEmpty then (if cond r then some ds else none)
        else if cond r3 then some (ds ++ sep :: es)
        else if cond r then some ds
        else none
      else if cond r then some ds else none
    | [] => if cond r then some ds else none

/-- `re.search` scan for `numThenCond`. -/
def searchNumCond (cond : List Char → Bool) : List Char → Option (List Char)
  | [] => none
  | c :: r =>
    match numThenCond cond (c :: r) with
    | some g => some g
    | none => searchNumCond cond r

/-- `Impact for this product:\s*([A-E])\s*\(Score:\s*(num)/100\)`
(case-insensitive) at the head; returns the letter and the number group. -/
def impactAt (l : List Char) : Option (Char × List Char) :=
  match stripCiLit ("impact for this product:".data) l with
  | none => none
  | some r0 =>
    match dropWs r0 with
    | c :: r2 =>
      if isLetterAE c then
        match stripCiLit ("(score:".data) (dropWs r2) with
        | none => none
        | some r4 => (numThenCond (fun r => ("/100)".data).isPrefixOf r) (dropWs r4)).map
            (fun g => (c, g))
      else none
    | [] => none

def impactSearch : List Char → Option (Char × List Char)
  | [] => none
  | c :: r =>
    match impactAt (c :: r) with
    | some x => some x
    | none => impactSearch r

/-- `Final score:\s*(num)/100` (case-insensitive) search. -/
def finalScoreSearch : List Char → Option (List Char)
  | [] => none
  | c :: r =>
    match (match stripCiLit ("final score:".data) (c :: r) with
           | none => none
           | some r0 => numThenCond (fun s => ("/100".data).isPrefixOf s) (dropWs r0)) with
    | some g => some g
    | none => finalScoreSearch r

/-- The `Final score` loop over `.panel_text` divs with `break` on the first
regex hit. -/
def finalScoreScan (divs : List HNode) : Option ℚ :=
  match firstSome (divs.map (fun d =>
      (finalScoreSearch d.textOf.data).map (fun g => parse_float (String.mk g)))) with
  | some r => r
  | none => none

/-- `Eco-Score\s*([A-E])` (case-insensitive) search. -/
def ecoH4Search : List Char → Option Char
  | [] => none
  | c :: r =>
    match (match stripCiLit ("eco-score".data) (c :: r) with
           | none => none
           | some r0 =>
             match dropWs r0 with
             | d :: _ => if isLetterAE d then some d else none
             | [] => none) with
    | some d => some d
    | none => ecoH4Search r

/-- The grade fallback loop over all `h4` headings (lines 497-504); the
loop breaks only when the regex matches. -/
def ecoH4Fallback (h4s : List HNode) : Option String :=
  firstSome (h4s.map (fun h =>
    let t := h.textOf
    if containsSub "Eco-Score" t || containsSub "Ecoscore" t then
      (ecoH4Search t.data).map (fun d => String.mk [d.toUpper])
    else none))

/-- `\s*g\b` continuation for the carbon-footprint regex. -/
def gBoundaryAfter (rest : List Char) : Bool :=
  match dropWs rest with
  | 'g' :: r2 =>
    match r2 with
    | [] => true
    | c :: _ => !(wordChar c)
  | _ => false

/-- `\s*(?:kg|g)\b` (case-insensitive) continuation; `kg` is tried before
`g`, as in the alternation. -/
def kgGBoundaryAfter (rest : List Char) : Bool :=
  let r := dropWs rest
  (match r with
   | a :: b :: r2 =>
     a.toLower == 'k' && b.toLower == 'g' &&
       (match r2 with | [] => true | c :: _ => !(wordChar c))
   | _ => false)
  ||
  (match r with
   | a :: r2 =>
     a.toLower == 'g' && (match r2 with | [] => true | c :: _ => !(wordChar c))
   | _ => false)

/-- The paragraph fallback loop for the carbon footprint (lines 513-520);
breaks only when the regex matches. -/
def carbonPScan (ps : List HNode) : Option ℚ :=
  match firstSome (ps.map (fun p =>
      if containsSub "carbon footprint" (strLower p.textOf) then
        (searchNumCond kgGBoundaryAfter p.textOf.data).map
          (fun g => parse_float (String.mk g))
      else none)) with
  | some r => r
  | none => none

/-- `_parse_ecoscore_and_carbon` (lines 463-522): returns the triple
`(ecoscore_grade, ecoscore_score, carbon)`. -/
def parse_ecoscore_and_carbon (soup : HNode) :
    Option String × Option ℚ × Option ℚ :=
  let fromPanel : Option String × Option ℚ :=
    match findById soup "panel_environmental_score_total" with
    | none => (none, none)
    | some panelTotal =>
      let fromH4 : Option String × Option ℚ :=
        match findTag panelTotal "h4" with
        | none => (none, none)
        | some h4 =>
          let t := h4.textOf.data
          match impactSearch t with
          | some cg => (some (String.mk [cg.1.toUpper]), parse_float (String.mk cg.2))
          | none =>
            let grade :=
              match t.find? isLetterAE with
              | some c => some (String.mk [c.toUpper])
              | none => none
            let score :=
              match searchNumCond (fun s => ("/100".data).isPrefixOf s) t with
              | some g => parse_float (String.mk g)
              | none => none
            (grade, score)
      let score2 :=
        match fromH4.2 with
        | some q => some q
        | none => finalScoreScan (findAllClass panelTotal "panel_text")
      (fromH4.1, score2)
  let grade2 :=
    match fromPanel.1 with
    | some g => some g
    | none => ecoH4Fallback (findAllTag soup "h4")
  let carbon0 :=
    match findById soup "panel_carbon_footprint" with
    | none => none
    | some pc =>
      match searchNumCond gBoundaryAfter pc.textOf.data with
      | some g => parse_float (String.mk g)
      | none => none
  let carbon1 :=
    match carbon0 with
    | some q => some q
    | none => carbonPScan (findAllTag soup "p")
  (grade2, fromPanel.2, carbon1)

/-! ## `scrape_product` (lines 548-600)

The page fetch `_get_soup(url)` is the caller's concern (the parsed
document is a parameter); the image download only touches the filesystem,
not the record. The assignment on line 592,
`ecoscore_grade, carbon = _parse_ecoscore_and_carbon(soup)`, unpacks the
returned tuple into two targets; Python unpacking requires the sequence
length to equal the number of targets, so the run-time value sequence is
modelled explicitly. -/

inductive PyVal where
  | vnone
  | vstr (s : String)
  | vnum (q : ℚ)

def pyOfOptStr : Option String → PyVal
  | none => .vnone
  | some s => .vstr s

def pyOfOptQ : Option ℚ → PyVal
  | none => .vnone
  | some q => .vnum q

def pyToOptStr : PyVal → Option String
  | .vstr s => some s
  | _ => none

def pyToOptQ : PyVal → Option ℚ
  | .vnum q => some q
  | _ => none

/-- The run-time value sequence produced by `_parse_ecoscore_and_carbon`:
its three components in order. -/
def ecoscoreCarbonSeq (soup : HNode) : List PyVal :=
  [pyOfOptStr (parse_ecoscore_and_carbon soup).1,
   pyOfOptQ (parse_ecoscore_and_carbon soup).2.1,
   pyOfOptQ (parse_ecoscore_and_carbon soup).2.2]

/-- `scrape_product` on an already-fetched document. Field assignments
follow lines 551-590; the two-target unpacking on line 592 succeeds exactly
when the value sequence has two elements, and otherwise raises
`ValueError`. -/
def scrape_product (url : String) (download_images : Bool) (images_dir : String)
    (soup : HNode) : Except String ProductRecord :=
  let r0 : ProductRecord := { url := url }
  let r1 := { r0 with
    product_name := parse_product_name soup
    barcode := parse_barcode soup
    brand := parse_field_span soup "field_brands"
    quantity := parse_field_span soup "field_quantity"
    packaging := parse_field_span soup "field_packaging"
    stores := parse_field_span soup "field_stores"
    countries := parse_field_span soup "field_countries"
    origins := parse_field_span soup "field_origins"
    manufacturing_places := parse_field_span soup "field_manufacturing_places"
    serving_size := parse_serving_size soup
    ingredients_text := (parse_ingredients_block soup).1
    allergens := (parse_ingredients_block soup).2.1
    traces := (parse_ingredients_block soup).2.2 }
  let r2 := parse_nutrition_table soup r1
  let r3 := { r2 with
    nutriscore_letter := parse_nutriscore_letter soup
    nova_group := parse_nova_group soup
    main_image_url := parse_main_image_url soup
    categories := parse_categories soup
    contains_palm_oil := parse_palm_oil_flag soup
    vegetarian_status := (parse_veg_flags soup).1
    vegan_status := (parse_veg_flags soup).2
    nutrient_level_fat := (parse_nutrient_levels soup).fat
    nutrient_level_saturated_fat := (parse_nutrient_levels soup).saturated_fat
    nutrient_level_sugars := (parse_nutrient_levels soup).sugars
    nutrient_level_salt := (parse_nutrient_levels soup).salt
    additives := parse_additives soup }
  match ecoscoreCarbonSeq soup with
  | [g, c] =>
    Except.ok { r3 with
      ecoscore_grade := pyToOptStr g
      carbon_footprint_100g := pyToOptQ c }
  | _ => Except.error "ValueError: too many values to unpack (expected 2)"

/-! ## `scrape_snacks_dataset` (lines 603-649)

The two network operations are oracle parameters: `fetch` is
`_fetch_json_search_page` for a given page number (query and page size are
fixed by the caller and absorbed into the oracle), `getSoup` is
`_get_soup`. Printing and the politeness sleep have no observable effect
on the result and are omitted. -/

structure ScrapeState where
  products : List ProductRecord
  seen : List String

/-- The per-URL body of the inner loop (lines 634-647): skip seen URLs,
record the URL as seen, and append the scraped record unless fetching or
scraping raised (the exception is caught, logged and skipped). -/
def processUrl (getSoup : String → Except String HNode)
    (download_images : Bool) (images_dir : String)
    (st : ScrapeState) (url : String) : ScrapeState :=
  if st.seen.contains url then st
  else
    let seen2 := st.seen ++ [url]
    match getSoup url with
    | Except.error _ => { products := st.products, seen := seen2 }
    | Except.ok soup =>
      match scrape_product url download_images images_dir soup with
      | Except.error _ => { products := st.products, seen := seen2 }
      | Except.ok r => { products := st.products ++ [r], seen := seen2 }

/-- The page loop (lines 622-647): a fetch error breaks out of the
pagination, an empty listing breaks out, and otherwise every URL of the
page is processed before moving on. -/
def runPages (fetch : Nat → Except String (List String))
    (getSoup : String → Except String HNode)
    (download_images : Bool) (images_dir : String) :
    List Nat → ScrapeState → ScrapeState
  | [], st => st
  | p :: ps, st =>
    match fetch p with
    | Except.error _ => st
    | Except.ok [] => st
    | Except.ok (u :: us) =>
      runPages fetch getSoup download_images images_dir ps
        ((u :: us).foldl (processUrl getSoup download_images images_dir) st)

/-- The page range (lines 616-620): `range(start, end+1)` with
`end = max(start, start + pages_to_scrape - 1)` when a page count is given,
else `range(1, max_pages + 1)`. -/
def pageIterOf (max_pages start_page : Nat) (pages_to_scrape : Option Nat) : List Nat :=
  match pages_to_scrape with
  | some n =>
    let endPage := max start_page (start_page + n - 1)
    List.range' start_page (endPage + 1 - start_page)
  | none => List.range' 1 max_pages

/-- `scrape_snacks_dataset`: the seen-set and the product list start empty
on every call (lines 613-614). -/
def scrape_snacks_dataset (fetch : Nat → Except String (List String))
    (getSoup : String → Except String HNode)
    (max_pages : Nat) (download_images : Bool) (images_dir : String)
    (start_page : Nat) (pages_to_scrape : Option Nat) : List ProductRecord :=
  (runPages fetch getSoup download_images images_dir
      (pageIterOf max_pages start_page pages_to_scrape)
      { products := [], seen := [] }).products

/-! ## `save_to_json` (lines 652-655)

`json.dump([asdict(r) for r in records], f)` writes the JSON value below;
`json.load` parses the written text back to the same value (the JSON text
encoding round-trips exactly: strings are UTF-8, Python floats are written
with round-tripping `repr`). The JSON values are modelled directly. -/

inductive Json where
  | jnull
  | jstr (s : String)
  | jnum (q : ℚ)
  | jbool (b : Bool)
  | jarr (elems : List Json)
  | jobj (fields : List (String × Json))

def jOptStr : Option String → Json
  | none => .jnull
  | some s => .jstr s

def jOptQ : Option ℚ → Json
  | none => .jnull
  | some q => .jnum q

def jOptInt : Option Int → Json
  | none => .jnull
  | some n => .jnum (n : ℚ)

def jOptBool : Option Bool → Json
  | none => .jnull
  | some b => .jbool b

/-- `asdict(record)` as dumped by `json.dump`: an object whose keys are the
dataclass fields in declaration order. -/
def asdictJson (r : ProductRecord) : Json :=
  .jobj
    [("url", .jstr r.url),
     ("product_name", jOptStr r.product_name),
     ("barcode", jOptStr r.barcode),
     ("brand", jOptStr r.brand),
     ("quantity", jOptStr r.quantity),
     ("serving_size", jOptStr r.serving_size),
     ("nutriscore_letter", jOptStr r.nutriscore_letter),
     ("nova_group", jOptInt r.nova_group),
     ("ingredients_text", jOptStr r.ingredients_text),
     ("allergens", jOptStr r.allergens),
     ("traces", jOptStr r.traces),
     ("energy_kj_100g", jOptQ r.energy_kj_100g),
     ("energy_kcal_100g", jOptQ r.energy_kcal_100g),
     ("fat_100g", jOptQ r.fat_100g),
     ("saturated_fat_100g", jOptQ r.saturated_fat_100g),
     ("carbohydrates_100g", jOptQ r.carbohydrates_100g),
     ("sugars_100g", jOptQ r.sugars_100g),
     ("fiber_100g", jOptQ r.fiber_100g),
     ("proteins_100g", jOptQ r.proteins_100g),
     ("salt_100g", jOptQ r.salt_100g),
     ("main_image_url", jOptStr r.main_image_url),
     ("categories", jOptStr r.categories),
     ("contains_palm_oil", jOptBool r.contains_palm_oil),
     ("vegetarian_status", jOptStr r.vegetarian_status),
     ("vegan_status", jOptStr r.vegan_status),
     ("nutrient_level_fat", jOptStr r.nutrient_level_fat),
     ("nutrient_level_saturated_fat", jOptStr r.nutrient_level_saturated_fat),
     ("nutrient_level_sugars", jOptStr r.nutrient_level_sugars),
     ("nutrient_level_salt", jOptStr r.nutrient_level_salt),
     ("additives", .jarr (r.additives.map Json.jstr)),
     ("packaging", jOptStr r.packaging),
     ("stores", jOptStr r.stores),
     ("countries", jOptStr r.countries),
     ("origins", jOptStr r.origins),
     ("manufacturing_places", jOptStr r.manufacturing_places),
     ("ecoscore_grade", jOptStr r.ecoscore_grade),
     ("ecoscore_score", jOptQ r.ecoscore_score),
     ("carbon_footprint_100g", jOptQ r.carbon_footprint_100g)]

/-- The JSON value `save_to_json` writes for a record list. -/
def saveToJsonValue (records : List ProductRecord) : Json :=
  .jarr (records.map asdictJson)

/-! Reading the dump back, field for field. -/

def dStr : Json → Option String
  | .jstr s => some s
  | _ => none

def dOptStr : Json → Option (Option String)
  | .jnull => some none
  | .jstr s => some (some s)
  | _ => none

def dOptQ : Json → Option (Option ℚ)
  | .jnull => some none
  | .jnum q => some (some q)
  | _ => none

def dOptInt : Json → Option (Option Int)
  | .jnull => some none
  | .jnum q => if q.den = 1 then some (some q.num) else none
  | _ => none

def dOptBool : Json → Option (Option Bool)
  | .jnull => some none
  | .jbool b => some (some b)
  | _ => none

def dStrs : List Json → Option (List String)
  | [] => some []
  | j :: r =>
    match dStr j, dStrs r with
    | some s, some l => some (s :: l)
    | _, _ => none

/-- Pop the next dumped field: `json.dump` writes the keys in dataclass
order, so each key is expected at the head of the remaining field list. -/
def dField (key : String) : List (String × Json) → Option (Json × List (String × Json))
  | [] => none
  | (k, j) :: r => if k == key then some (j, r) else none

def dStrList : Json → Option (List String)
  | .jarr xs => dStrs xs
  | _ => none

/-- Read the next dumped field and store it in the record under
construction. -/
def popField {A : Type} (key : String) (dec : Json → Option A)
    (set : ProductRecord → A → ProductRecord)
    (p : ProductRecord × List (String × Json)) :
    Option (ProductRecord × List (String × Json)) :=
  match dField key p.2 with
  | none => none
  | some jr =>
    match dec jr.1 with
    | none => none
    | some v => some (set p.1 v, jr.2)

def decodeFields1 (p : ProductRecord × List (String × Json)) :
    Option (ProductRecord × List (String × Json)) :=
  some p
    |>.bind (popField "product_name" dOptStr (fun r v => { r with product_name := v }))
    |>.bind (popField "barcode" dOptStr (fun r v => { r with barcode := v }))
    |>.bind (popField "brand" dOptStr (fun r v => { r with brand := v }))
    |>.bind (popField "quantity" dOptStr (fun r v => { r with quantity := v }))
    |>.bind (popField "serving_size" dOptStr (fun r v => { r with serving_size := v }))
    |>.bind (popField "nutriscore_letter" dOptStr (fun r v => { r with nutriscore_letter := v }))
    |>.bind (popField "nova_group" dOptInt (fun r v => { r with nova_group := v }))
    |>.bind (popField "ingredients_text" dOptStr (fun r v => { r with ingredients_text := v }))

def decodeFields2 (p : ProductRecord × List (String × Json)) :
    Option (ProductRecord × List (String × Json)) :=
  some p
    |>.bind (popField "allergens" dOptStr (fun r v => { r with allergens := v }))
    |>.bind (popField "traces" dOptStr (fun r v => { r with traces := v }))
    |>.bind (popField "energy_kj_100g" dOptQ (fun r v => { r with energy_kj_100g := v }))
    |>.bind (popField "energy_kcal_100g" dOptQ (fun r v => { r with energy_kcal_100g := v }))
    |>.bind (popField "fat_100g" dOptQ (fun r v => { r with fat_100g := v }))
    |>.bind (popField "saturated_fat_100g" dOptQ (fun r v => { r with saturated_fat_100g := v }))
    |>.bind (popField "carbohydrates_100g" dOptQ (fun r v => { r with carbohydrates_100g := v }))
    |>.bind (popField "sugars_100g" dOptQ (fun r v => { r with sugars_100g := v }))

def decodeFields3 (p : ProductRecord × List (String × Json)) :
    Option (ProductRecord × List (String × Json)) :=
  some p
    |>.bind (popField "fiber_100g" dOptQ (fun r v => { r with fiber_100g := v }))
    |>.bind (popField "proteins_100g" dOptQ (fun r v => { r with proteins_100g := v }))
    |>.bind (popField "salt_100g" dOptQ (fun r v => { r with salt_100g := v }))
    |>.bind (popField "main_image_url" dOptStr (fun r v => { r with main_image_url := v }))
    |>.bind (popField "categories" dOptStr (fun r v => { r with categories := v }))
    |>.bind (popField "contains_palm_oil" dOptBool (fun r v => { r with contains_palm_oil := v }))
    |>.bind (popField "vegetarian_status" dOptStr (fun r v => { r with vegetarian_status := v }))
    |>.bind (popField "vegan_status" dOptStr (fun r v => { r with vegan_status := v }))

def decodeFields4 (p : ProductRecord × List (String × Json)) :
    Option (ProductRecord × List (String × Json)) :=
  some p
    |>.bind (popField "nutrient_level_fat" dOptStr (fun r v => { r with nutrient_level_fat := v }))
    |>.bind (popField "nutrient_level_saturated_fat" dOptStr (fun r v => { r with nutrient_level_saturated_fat := v }))
    |>.bind (popField "nutrient_level_sugars" dOptStr (fun r v => { r with nutrient_level_sugars := v }))
    |>.bind (popField "nutrient_level_salt" dOptStr (fun r v => { r with nutrient_level_salt := v }))
    |>.bind (popField "additives" dStrList (fun r v => { r with additives := v }))
    |>.bind (popField "packaging" dOptStr (fun r v => { r with packaging := v }))
    |>.bind (popField "stores" dOptStr (fun r v => { r with stores := v }))
    |>.bind (popField "countries" dOptStr (fun r v => { r with countries := v }))

def decodeFields5 (p : ProductRecord × List (String × Json)) :
    Option (ProductRecord × List (String × Json)) :=
  some p
    |>.bind (popField "origins" dOptStr (fun r v => { r with origins := v }))
    |>.bind (popField "manufacturing_places" dOptStr (fun r v => { r with manufacturing_places := v }))
    |>.bind (popField "ecoscore_grade" dOptStr (fun r v => { r with ecoscore_grade := v }))
    |>.bind (popField "ecoscore_score" dOptQ (fun r v => { r with ecoscore_score := v }))
    |>.bind (popField "carbon_footprint_100g" dOptQ (fun r v => { r with carbon_footprint_100g := v }))

/-- Reconstruct one record from its dumped object (the shape `json.dump`
produced: the keys in dataclass order, nothing more). -/
def recordOfJson : Json → Option ProductRecord
  | .jobj fs =>
    (match dField "url" fs with
     | none => none
     | some jr =>
       match dStr jr.1 with
       | none => none
       | some u => some (({ url := u } : ProductRecord), jr.2))
    |>.bind decodeFields1
    |>.bind decodeFields2
    |>.bind decodeFields3
    |>.bind decodeFields4
    |>.bind decodeFields5
    |>.bind (fun p => if p.2.isEmpty then some p.1 else none)
  | _ => none
def recordsOfJson : List Json → Option (List ProductRecord)
  | [] => some []
  | j :: r =>
    match recordOfJson j, recordsOfJson r with
    | some a, some l => some (a :: l)
    | _, _ => none

/-- Reloading the dumped file: a JSON array of record objects. -/
def jsonLoadRecords : Json → Option (List ProductRecord)
  | .jarr xs => recordsOfJson xs
  | _ => none

/-! ## `save_to_csv` (lines 658-672)

The filesystem is a map from paths to the list of lines of the file (or
`none` when the path does not exist). `csv.DictWriter` writes one line per
row; cells are rendered with `str()` and minimally quoted. -/

def FileSys : Type := String → Option (List String)

/-- Minimal CSV quoting: quote when the cell contains the delimiter, the
quote character or a line break, doubling inner quotes. -/
def csvQuote (s : String) : String :=
  if containsSub "," s || containsSub "\"" s || containsSub "\n" s ||
      containsSub "\r" s then
    "\"" ++ replaceAll s "\"" "\"\"" ++ "\""
  else s

/-- `asdict(records[0]).keys()`: the dataclass fields in declaration
order. -/
def csvFieldNames : List String :=
  ["url", "product_name", "barcode", "brand", "quantity", "serving_size",
   "nutriscore_letter", "nova_group", "ingredients_text", "allergens", "traces",
   "energy_kj_100g", "energy_kcal_100g", "fat_100g", "saturated_fat_100g",
   "carbohydrates_100g", "sugars_100g", "fiber_100g", "proteins_100g",
   "salt_100g", "main_image_url", "categories", "contains_palm_oil",
   "vegetarian_status", "vegan_status", "nutrient_level_fat",
   "nutrient_level_saturated_fat", "nutrient_level_sugars",
   "nutrient_level_salt", "additives", "packaging", "stores", "countries",
   "origins", "manufacturing_places", "ecoscore_grade", "ecoscore_score",
   "carbon_footprint_100g"]

/-- Renders a float cell (models `str()` of the Python float; no claim
checked here depends on the digits of a non-integral value). -/
def pyStrOfRat (q : ℚ) : String :=
  if q.den = 1 then toString q.num ++ ".0"
  else toString q.num ++ "/" ++ toString q.den

def cellOptStr : Option String → String
  | none => ""
  | some s => s

def cellOptQ : Option ℚ → String
  | none => ""
  | some q => pyStrOfRat q

def cellOptInt : Option Int → String
  | none => ""
  | some n => toString n

def cellOptBool : Option Bool → String
  | none => ""
  | some b => if b then "True" else "False"

/-- A single-quote character, written by code point. -/
def sQuote : String := String.mk [Char.ofNat 39]

/-- `str()` of the additives list. -/
def cellStrList (l : List String) : String :=
  "[" ++ String.mk (intercalateL (", ".data)
      (l.map (fun s => (sQuote ++ s ++ sQuote).data))) ++ "]"

def csvCells (r : ProductRecord) : List String :=
  [r.url, cellOptStr r.product_name, cellOptStr r.barcode, cellOptStr r.brand,
   cellOptStr r.quantity, cellOptStr r.serving_size,
   cellOptStr r.nutriscore_letter, cellOptInt r.nova_group,
   cellOptStr r.ingredients_text, cellOptStr r.allergens, cellOptStr r.traces,
   cellOptQ r.energy_kj_100g, cellOptQ r.energy_kcal_100g, cellOptQ r.fat_100g,
   cellOptQ r.saturated_fat_100g, cellOptQ r.carbohydrates_100g,
   cellOptQ r.sugars_100g, cellOptQ r.fiber_100g, cellOptQ r.proteins_100g,
   cellOptQ r.salt_100g, cellOptStr r.main_image_url, cellOptStr r.categories,
   cellOptBool r.contains_palm_oil, cellOptStr r.vegetarian_status,
   cellOptStr r.vegan_status, cellOptStr r.nutrient_level_fat,
   cellOptStr r.nutrient_level_saturated_fat, cellOptStr r.nutrient_level_sugars,
   cellOptStr r.nutrient_level_salt, cellStrList r.additives,
   cellOptStr r.packaging, cellOptStr r.stores, cellOptStr r.countries,
   cellOptStr r.origins, cellOptStr r.manufacturing_places,
   cellOptStr r.ecoscore_grade, cellOptQ r.ecoscore_score,
   cellOptQ r.carbon_footprint_100g]

/-- One CSV data line for a record. -/
def csvRow (r : ProductRecord) : String :=
  String.mk (intercalateL (",".data) ((csvCells r).map (fun c => (csvQuote c).data)))

/-- The CSV header line. -/
def csvHeader : String :=
  String.mk (intercalateL (",".data) (csvFieldNames.map (fun c => (csvQuote c).data)))

/-- `save_to_csv`: empty input returns without touching the file; the mode
is `"a"` only when appending to an existing file, and the header is written
unless appending to an existing file. -/
def save_to_csv (records : List ProductRecord) (path : String) (append : Bool)
    (fs : FileSys) : FileSys :=
  match records with
  | [] => fs
  | _ :: _ =>
    let fileExists := (fs path).isSome
    let oldLines := if append && fileExists then (fs path).getD [] else []
    let headerLines := if !append || !fileExists then [csvHeader] else []
    let newLines := oldLines ++ headerLines ++ records.map csvRow
    fun p => if p = path then some newLines else fs p

/-! ## Concrete fixtures used in the theorems below -/

/-- A table cell. -/
def tdNode (s : String) : HNode := .node "td" [] s []

/-- A nutrition row with a label cell and a value cell. -/
def trRow (label value : String) : HNode :=
  .node "tr" [] "" [tdNode label, tdNode value]

/-- A document holding a nutrition-facts table with one `Total fat` row. -/
def nutritionTableDoc : HNode :=
  .node "html" [] "" [.node "table" [("aria-label", "Nutrition facts")] ""
    [trRow "Total fat" "3 g"]]

/-- A record with only the mandatory field set. -/
def baseRec : ProductRecord := { url := "u" }

/-- An empty filesystem. -/
def fsNone : FileSys := fun _ => none

/-- A filesystem with an existing but empty file at `out.csv`. -/
def fsEmptyCsv : FileSys := fun p => if p = "out.csv" then some [] else none

/-! # Theorems

First the auxiliary lemmas about the numeric regex machinery, then one
theorem per claim (with witnesses and counterexamples). -/

theorem takeWhileB_all (p : Char → Bool) (r : List Char)
    (hr : ∀ c, r.head? = some c → p c = false) :
    ∀ l : List Char, (∀ c ∈ l, p c = true) → takeWhileB p (l ++ r) = (l, r) := by
  intro l
  induction l with
  | nil =>
    intro _
    cases r with
    | nil => rfl
    | cons c r2 =>
      have hc := hr c rfl
      simp [takeWhileB, hc]
  | cons c l2 ih =>
    intro hl
    have hc : p c = true := hl c (List.mem_cons_self c l2)
    simp [takeWhileB, hc, ih (fun d hd => hl d (List.mem_cons_of_mem c hd))]

theorem takeDigits_all (l r : List Char) (hl : ∀ c ∈ l, c.isDigit = true)
    (hr : ∀ c, r.head? = some c → c.isDigit = false) :
    takeDigits (l ++ r) = (l, r) :=
  takeWhileB_all Char.isDigit r hr l hl

theorem takeDigits_of_all (l : List Char) (hl : ∀ c ∈ l, c.isDigit = true) :
    takeDigits l = (l, []) := by
  have h := takeDigits_all l [] hl (by intro c hc; simp at hc)
  simpa using h

theorem matchUnsignedNum_comma (d e suf : List Char)
    (hd0 : d ≠ []) (hd : ∀ c ∈ d, c.isDigit = true)
    (he0 : e ≠ []) (he : ∀ c ∈ e, c.isDigit = true)
    (hs : ∀ c, suf.head? = some c → c.isDigit = false) :
    matchUnsignedNum (d ++ ',' :: (e ++ suf)) = some (d ++ ',' :: e) := by
  have h1 : takeDigits (d ++ ',' :: (e ++ suf)) = (d, ',' :: (e ++ suf)) := by
    refine takeDigits_all d (',' :: (e ++ suf)) hd ?_
    intro c hc
    simp only [List.head?_cons, Option.some.injEq] at hc
    subst hc
    decide
  have h2 : takeDigits (e ++ suf) = (e, suf) := takeDigits_all e suf he hs
  obtain ⟨d0, d1, rfl⟩ : ∃ a b, d = a :: b := by
    cases d with
    | nil => exact absurd rfl hd0
    | cons a b => exact ⟨a, b, rfl⟩
  obtain ⟨e0, e1, rfl⟩ : ∃ a b, e = a :: b := by
    cases e with
    | nil => exact absurd rfl he0
    | cons a b => exact ⟨a, b, rfl⟩
  simp only [List.cons_append] at h1 h2
  simp [matchUnsignedNum, h1, h2]

theorem matchUnsignedNum_int (d suf : List Char)
    (hd0 : d ≠ []) (hd : ∀ c ∈ d, c.isDigit = true)
    (hs : ∀ c, suf.head? = some c → c.isDigit = false ∧ c ≠ '.' ∧ c ≠ ',') :
    matchUnsignedNum (d ++ suf) = some d := by
  have h1 : takeDigits (d ++ suf) = (d, suf) :=
    takeDigits_all d suf hd (fun c hc => (hs c hc).1)
  obtain ⟨d0, d1, rfl⟩ : ∃ a b, d = a :: b := by
    cases d with
    | nil => exact absurd rfl hd0
    | cons a b => exact ⟨a, b, rfl⟩
  cases suf with
  | nil =>
    simp only [List.cons_append, List.append_nil] at h1
    simp [matchUnsignedNum, h1]
  | cons s r2 =>
    obtain ⟨_, hdot, hcom⟩ := hs s rfl
    simp only [List.cons_append] at h1
    simp [matchUnsignedNum, h1, hdot, hcom]

theorem matchFloatAt_digit (c : Char) (l : List Char) (hc : c.isDigit = true) :
    matchFloatAt (c :: l) = matchUnsignedNum (c :: l) := by
  have h1 : (c == '+') = false := by
    refine beq_eq_false_iff_ne.mpr ?_
    intro h
    subst h
    exact absurd hc (by decide)
  have h2 : (c == '-') = false := by
    refine beq_eq_false_iff_ne.mpr ?_
    intro h
    subst h
    exact absurd hc (by decide)
  simp [matchFloatAt, h1, h2]

theorem matchFloatAt_none (c : Char) (l : List Char) (h1 : c.isDigit = false)
    (h2 : c ≠ '+') (h3 : c ≠ '-') : matchFloatAt (c :: l) = none := by
  have b2 : (c == '+') = false := beq_eq_false_iff_ne.mpr h2
  have b3 : (c == '-') = false := beq_eq_false_iff_ne.mpr h3
  have ht : takeDigits (c :: l) = ([], c :: l) := by
    simp [takeDigits, takeWhileB, h1]
  have hmu : matchUnsignedNum (c :: l) = none := by
    simp [matchUnsignedNum, ht]
  simp [matchFloatAt, b2, b3, hmu]

theorem floatSearch_skip (rest : List Char) :
    ∀ p : List Char, (∀ c ∈ p, c.isDigit = false ∧ c ≠ '+' ∧ c ≠ '-') →
      floatSearch (p ++ rest) = floatSearch rest := by
  intro p
  induction p with
  | nil => intro _; rfl
  | cons c p2 ih =>
    intro hp
    obtain ⟨h1, h2, h3⟩ := hp c (List.mem_cons_self c p2)
    have hm := matchFloatAt_none c (p2 ++ rest) h1 h2 h3
    simp [floatSearch, hm, ih (fun d hd => hp d (List.mem_cons_of_mem c hd))]

theorem floatSearch_none : ∀ s : List Char,
    (∀ c ∈ s, c.isDigit = false) → floatSearch s = none := by
  intro s
  induction s with
  | nil => intro _; rfl
  | cons c r ih =>
    intro h
    have h1 := h c (List.mem_cons_self c r)
    have hm : matchFloatAt (c :: r) = none := by
      by_cases hc : c = '+' ∨ c = '-'
      · have hb : (c == '+' || c == '-') = true := by
          rcases hc with h' | h' <;> simp [h']
        have hr : matchUnsignedNum r = none := by
          cases r with
          | nil => rfl
          | cons c2 r2 =>
            have h2 := h c2 (List.mem_cons_of_mem c (List.mem_cons_self c2 r2))
            have ht : takeDigits (c2 :: r2) = ([], c2 :: r2) := by
              simp [takeDigits, takeWhileB, h2]
            simp [matchUnsignedNum, ht]
        simp [matchFloatAt, hb, hr]
      · push_neg at hc
        exact matchFloatAt_none c r h1 hc.1 hc.2
    simp [floatSearch, hm, ih (fun d hd => h d (List.mem_cons_of_mem c hd))]

theorem map_commaToDot_digits : ∀ l : List Char,
    (∀ c ∈ l, c.isDigit = true) → l.map commaToDot = l := by
  intro l
  induction l with
  | nil => intro _; rfl
  | cons c r ih =>
    intro h
    have hc : commaToDot c = c := by
      have hne : c ≠ ',' := by
        intro hh
        subst hh
        exact absurd (h ',' (List.mem_cons_self _ r)) (by decide)
      simp [commaToDot, beq_eq_false_iff_ne.mpr hne]
    simp [hc, ih (fun d hd => h d (List.mem_cons_of_mem c hd))]

theorem pyFloat_point (d e : List Char)
    (hd0 : d ≠ []) (hd : ∀ c ∈ d, c.isDigit = true)
    (he0 : e ≠ []) (he : ∀ c ∈ e, c.isDigit = true) :
    pyFloat (d ++ '.' :: e)
      = some ((digitsVal d : ℚ) + (digitsVal e : ℚ) / 10 ^ e.length) := by
  obtain ⟨d0, d1, rfl⟩ : ∃ a b, d = a :: b := by
    cases d with
    | nil => exact absurd rfl hd0
    | cons a b => exact ⟨a, b, rfl⟩
  obtain ⟨e0, e1, rfl⟩ : ∃ a b, e = a :: b := by
    cases e with
    | nil => exact absurd rfl he0
    | cons a b => exact ⟨a, b, rfl⟩
  have hd0dig : d0.isDigit = true := hd d0 (List.mem_cons_self _ _)
  have b1 : (d0 == '-') = false := by
    refine beq_eq_false_iff_ne.mpr ?_
    intro h
    subst h
    exact absurd hd0dig (by decide)
  have b2 : (d0 == '+') = false := by
    refine beq_eq_false_iff_ne.mpr ?_
    intro h
    subst h
    exact absurd hd0dig (by decide)
  have h1 : takeDigits ((d0 :: d1) ++ '.' :: (e0 :: e1)) = (d0 :: d1, '.' :: (e0 :: e1)) := by
    refine takeDigits_all _ _ hd ?_
    intro c hc
    simp only [List.head?_cons, Option.some.injEq] at hc
    subst hc
    decide
  have h2 : takeDigits (e0 :: e1) = (e0 :: e1, []) := takeDigits_of_all _ he
  simp only [List.cons_append] at h1
  simp [pyFloat, b1, b2, pyFloatUnsigned, h1, h2]

theorem pyFloat_digits (d : List Char)
    (hd0 : d ≠ []) (hd : ∀ c ∈ d, c.isDigit = true) :
    pyFloat d = some (digitsVal d : ℚ) := by
  obtain ⟨d0, d1, rfl⟩ : ∃ a b, d = a :: b := by
    cases d with
    | nil => exact absurd rfl hd0
    | cons a b => exact ⟨a, b, rfl⟩
  have hd0dig : d0.isDigit = true := hd d0 (List.mem_cons_self _ _)
  have b1 : (d0 == '-') = false := by
    refine beq_eq_false_iff_ne.mpr ?_
    intro h
    subst h
    exact absurd hd0dig (by decide)
  have b2 : (d0 == '+') = false := by
    refine beq_eq_false_iff_ne.mpr ?_
    intro h
    subst h
    exact absurd hd0dig (by decide)
  have h1 : takeDigits (d0 :: d1) = (d0 :: d1, []) := takeDigits_of_all _ hd
  simp [pyFloat, b1, b2, pyFloatUnsigned, h1]

theorem parse_float_comma (p d e suf : List Char)
    (hp : ∀ c ∈ p, c.isDigit = false ∧ c ≠ '+' ∧ c ≠ '-')
    (hd0 : d ≠ []) (hd : ∀ c ∈ d, c.isDigit = true)
    (he0 : e ≠ []) (he : ∀ c ∈ e, c.isDigit = true)
    (hs : ∀ c, suf.head? = some c → c.isDigit = false) :
    parse_float (String.mk (p ++ (d ++ ',' :: (e ++ suf))))
      = some ((digitsVal d : ℚ) + (digitsVal e : ℚ) / 10 ^ e.length) := by
  obtain ⟨d0, d1, rfl⟩ : ∃ a b, d = a :: b := by
    cases d with
    | nil => exact absurd rfl hd0
    | cons a b => exact ⟨a, b, rfl⟩
  have hne : (String.mk (p ++ ((d0 :: d1) ++ ',' :: (e ++ suf)))).data.isEmpty = false := by
    cases p with
    | nil => rfl
    | cons a b => rfl
  have hm : matchFloatAt (d0 :: (d1 ++ ',' :: (e ++ suf)))
      = some ((d0 :: d1) ++ ',' :: e) := by
    rw [matchFloatAt_digit _ _ (hd d0 (List.mem_cons_self _ _))]
    exact matchUnsignedNum_comma (d0 :: d1) e suf hd0 hd he0 he hs
  have hsearch : floatSearch (p ++ ((d0 :: d1) ++ ',' :: (e ++ suf)))
      = some ((d0 :: d1) ++ ',' :: e) := by
    rw [floatSearch_skip _ p hp]
    simp [floatSearch, hm]
  have hmap : ((d0 :: d1) ++ ',' :: e).map commaToDot = (d0 :: d1) ++ '.' :: e := by
    rw [List.map_append, map_commaToDot_digits _ hd]
    simp [commaToDot, map_commaToDot_digits _ he]
  simp only [parse_float, hne, Bool.false_eq_true, if_false, hsearch, hmap]
  exact pyFloat_point (d0 :: d1) e hd0 hd he0 he

theorem parse_float_int (p d suf : List Char)
    (hp : ∀ c ∈ p, c.isDigit = false ∧ c ≠ '+' ∧ c ≠ '-')
    (hd0 : d ≠ []) (hd : ∀ c ∈ d, c.isDigit = true)
    (hs : ∀ c, suf.head? = some c → c.isDigit = false ∧ c ≠ '.' ∧ c ≠ ',') :
    parse_float (String.mk (p ++ (d ++ suf))) = some (digitsVal d : ℚ) := by
  obtain ⟨d0, d1, rfl⟩ : ∃ a b, d = a :: b := by
    cases d with
    | nil => exact absurd rfl hd0
    | cons a b => exact ⟨a, b, rfl⟩
  have hne : (String.mk (p ++ ((d0 :: d1) ++ suf))).data.isEmpty = false := by
    cases p with
    | nil => rfl
    | cons a b => rfl
  have hm : matchFloatAt (d0 :: (d1 ++ suf)) = some (d0 :: d1) := by
    rw [matchFloatAt_digit _ _ (hd d0 (List.mem_cons_self _ _))]
    exact matchUnsignedNum_int (d0 :: d1) suf hd0 hd hs
  have hsearch : floatSearch (p ++ ((d0 :: d1) ++ suf)) = some (d0 :: d1) := by
    rw [floatSearch_skip _ p hp]
    simp [floatSearch, hm]
  simp only [parse_float, hne, Bool.false_eq_true, if_false, hsearch,
    map_commaToDot_digits _ hd]
  exact pyFloat_digits (d0 :: d1) hd0 hd

theorem parse_float_nodigits (s : List Char)
    (h : ∀ c ∈ s, c.isDigit = false) : parse_float (String.mk s) = none := by
  cases s with
  | nil => rfl
  | cons c r =>
    have hne : (String.mk (c :: r)).data.isEmpty = false := rfl
    simp only [parse_float, hne, Bool.false_eq_true, if_false,
      floatSearch_none (c :: r) h]

theorem parse_energy_of_search (t : String) (g1 g2 : List Char)
    (h1 : unitNumSearch kjAfter t.data = some g1)
    (h2 : unitNumSearch kcalAfter t.data = some g2) :
    parse_energy t = (parse_float (String.mk g1), parse_float (String.mk g2)) := by
  have hne : t.data.isEmpty = false := by
    cases ht : t.data with
    | nil =>
      rw [ht] at h1
      exact absurd h1 (by simp [unitNumSearch])
    | cons c r => rfl
  simp only [parse_energy, hne, Bool.false_eq_true, if_false, h1, h2]

/-- C2: on the input `"2,380 kj (571 kcal)"` the two values are extracted
independently by the two unit-suffix patterns, but `_parse_energy` returns
kJ = 2.38 — not the 2380.0 documented in the spec and in the function's own
docstring example — because the captured group `"2,380"` goes through
`_parse_float`, which reads the thousands-separator comma as a decimal
point; the kcal component is 571.0 as claimed. -/
theorem c2_parse_energy_thousands_comma :
    parse_energy "2,380 kj (571 kcal)" = (some ((2.38 : ℚ)), some 571) := by
  have h1 : unitNumSearch kjAfter "2,380 kj (571 kcal)".data = some ("2,380".data) := by
    decide
  have h2 : unitNumSearch kcalAfter "2,380 kj (571 kcal)".data = some ("571".data) := by
    decide
  rw [parse_energy_of_search _ _ _ h1 h2]
  have v1 : parse_float (String.mk ("2,380".data))
      = some ((digitsVal ['2'] : ℚ) + (digitsVal ['3', '8', '0'] : ℚ)
          / 10 ^ (['3', '8', '0'] : List Char).length) := by
    have h := parse_float_comma [] ['2'] ['3', '8', '0'] []
      (by intro c hc; simp at hc)
      (by intro h; cases h) (by decide)
      (by intro h; cases h) (by decide)
      (by intro c hc; simp at hc)
    exact h
  have v2 : parse_float (String.mk ("571".data))
      = some ((digitsVal ['5', '7', '1'] : ℚ)) := by
    have h := parse_float_int [] ['5', '7', '1'] []
      (by intro c hc; simp at hc)
      (by intro h; cases h) (by decide)
      (by intro c hc; simp at hc)
    exact h
  rw [v1, v2]
  have d1 : digitsVal ['2'] = 2 := by decide
  have d2 : digitsVal ['3', '8', '0'] = 380 := by decide
  have d3 : digitsVal ['5', '7', '1'] = 571 := by decide
  rw [d1, d2, d3]
  norm_num

/-- C5: `_parse_float` extracts the first signed decimal number, reading a
comma as the decimal separator: on any input that is a digit-free,
sign-free prefix followed by `<digits>,<digits>` and a suffix that does not
extend the number, it returns that number's value (e.g. 2.5 for `"2,5 g"`);
and on text with no digits at all (hence no match) it returns `None`. -/
theorem c5_parse_float_comma_decimal (p d e suf : List Char)
    (hp : ∀ c ∈ p, c.isDigit = false ∧ c ≠ '+' ∧ c ≠ '-')
    (hd : d ≠ [] ∧ ∀ c ∈ d, c.isDigit = true)
    (he : e ≠ [] ∧ ∀ c ∈ e, c.isDigit = true)
    (hs : ∀ c, suf.head? = some c → c.isDigit = false) :
    parse_float (String.mk (p ++ (d ++ ',' :: (e ++ suf))))
        = some ((digitsVal d : ℚ) + (digitsVal e : ℚ) / 10 ^ e.length)
      ∧ ∀ s : List Char, (∀ c ∈ s, c.isDigit = false) →
        parse_float (String.mk s) = none :=
  ⟨parse_float_comma p d e suf hp hd.1 hd.2 he.1 he.2 hs,
   fun s h => parse_float_nodigits s h⟩

theorem c5_witness : parse_float "2,5 g" = some ((5 : ℚ) / 2) := by
  have h := (c5_parse_float_comma_decimal [] ['2'] ['5'] [' ', 'g']
    (by intro c hc; simp at hc)
    ⟨(by intro h; cases h), (by decide)⟩
    ⟨(by intro h; cases h), (by decide)⟩
    (by intro c hc; simp only [List.head?_cons, Option.some.injEq] at hc; subst hc; decide)).1
  have he : String.mk ([] ++ (['2'] ++ ',' :: (['5'] ++ [' ', 'g']))) = "2,5 g" := rfl
  rw [he] at h
  rw [h]
  have d1 : digitsVal ['2'] = 2 := by decide
  have d2 : digitsVal ['5'] = 5 := by decide
  rw [d1, d2]
  norm_num

/-- C4: `_normalize_status` lowers the (trimmed) input and tests, in
order: a text containing "unknown" gives `"unknown"`; otherwise one
containing "non-vegetarian"/"not vegetarian" or "non-vegan"/"not vegan"
gives `"no"`; otherwise one containing "vegetarian" or "vegan" gives
`"yes"`; and otherwise the trimmed original text passes through
unchanged. -/
theorem c4_normalize_status (text : String) :
    (containsSub "unknown" (strLower (pyStrip text)) = true →
      normalize_status text = "unknown")
  ∧ (containsSub "unknown" (strLower (pyStrip text)) = false →
     (containsSub "non-vegetarian" (strLower (pyStrip text)) ||
      containsSub "not vegetarian" (strLower (pyStrip text))) = true →
      normalize_status text = "no")
  ∧ (containsSub "unknown" (strLower (pyStrip text)) = false →
     (containsSub "non-vegetarian" (strLower (pyStrip text)) ||
      containsSub "not vegetarian" (strLower (pyStrip text))) = false →
     (containsSub "non-vegan" (strLower (pyStrip text)) ||
      containsSub "not vegan" (strLower (pyStrip text))) = true →
      normalize_status text = "no")
  ∧ (containsSub "unknown" (strLower (pyStrip text)) = false →
     (containsSub "non-vegetarian" (strLower (pyStrip text)) ||
      containsSub "not vegetarian" (strLower (pyStrip text))) = false →
     (containsSub "non-vegan" (strLower (pyStrip text)) ||
      containsSub "not vegan" (strLower (pyStrip text))) = false →
     (containsSub "vegetarian" (strLower (pyStrip text)) ||
      containsSub "vegan" (strLower (pyStrip text))) = true →
      normalize_status text = "yes")
  ∧ (containsSub "unknown" (strLower (pyStrip text)) = false →
     (containsSub "non-vegetarian" (strLower (pyStrip text)) ||
      containsSub "not vegetarian" (strLower (pyStrip text))) = false →
     (containsSub "non-vegan" (strLower (pyStrip text)) ||
      containsSub "not vegan" (strLower (pyStrip text))) = false →
     (containsSub "vegetarian" (strLower (pyStrip text)) ||
      containsSub "vegan" (strLower (pyStrip text))) = false →
      normalize_status text = pyStrip text) := by
  refine ⟨?_, ?_, ?_, ?_, ?_⟩
  · intro h1
    simp [normalize_status, h1]
  · intro h1 h2
    simp [normalize_status, h1, h2]
  · intro h1 h2 h3
    simp [normalize_status, h1, h2, h3]
  · intro h1 h2 h3 h4
    simp [normalize_status, h1, h2, h3, h4]
  · intro h1 h2 h3 h4
    simp [normalize_status, h1, h2, h3, h4]

theorem c4_witness :
    normalize_status "Non-vegetarian" = "no"
      ∧ normalize_status "Vegan" = "yes"
      ∧ normalize_status "Unknown" = "unknown" :=
  ⟨(c4_normalize_status "Non-vegetarian").2.1 (by decide) (by decide),
   (c4_normalize_status "Vegan").2.2.2.1 (by decide) (by decide) (by decide) (by decide),
   (c4_normalize_status "Unknown").1 (by decide)⟩

/-- Evaluation of the row dispatcher on a two-cell row: by definition it is
the `elif` chain of lines 241-258 applied to the lowered label and the
second cell's text. -/
theorem processRow_two (label value : String) (r : ProductRecord) :
    processNutritionRow r (trRow label value) =
      (if containsSub "energy" (strLower label) then
        { r with energy_kj_100g := (parse_energy value).1
                 energy_kcal_100g := (parse_energy value).2 }
      else if strLower label == "fat" then { r with fat_100g := parse_float value }
      else if containsSub "saturated fat" (strLower label) then
        { r with saturated_fat_100g := parse_float value }
      else if strLower label == "carbohydrates" then
        { r with carbohydrates_100g := parse_float value }
      else if containsSub "sugars" (strLower label) then
        { r with sugars_100g := parse_float value }
      else if containsSub "fiber" (strLower label) then
        { r with fiber_100g := parse_float value }
      else if containsSub "proteins" (strLower label) || strLower label == "protein" then
        { r with proteins_100g := parse_float value }
      else if containsSub "salt" (strLower label) then
        { r with salt_100g := parse_float value }
      else r) := rfl

/-- C3 counterexample: the row label `"Total fat"` contains the nutrient
name `"fat"` (case-insensitively) and its value cell parses to 3.0, yet
`_parse_nutrition_table` leaves `fat_100g` unassigned, because the `fat`
branch tests label equality, not substring containment. -/
theorem c3_counterexample :
    containsSub "fat" (strLower "Total fat") = true
      ∧ parse_float "3 g" = some 3
      ∧ (parse_nutrition_table nutritionTableDoc baseRec).fat_100g = none := by
  refine ⟨by decide, ?_, ?_⟩
  · have h := parse_float_int [] ['3'] [' ', 'g']
      (by intro c hc; simp at hc)
      (by intro h; cases h) (by decide)
      (by intro c hc; simp only [List.head?_cons, Option.some.injEq] at hc; subst hc; decide)
    have he : String.mk ([] ++ (['3'] ++ [' ', 'g'])) = "3 g" := rfl
    rw [he] at h
    rw [h]
    decide
  · decide

/-- C3 (amended): in `_parse_nutrition_table` each row with at least two
cells dispatches its lower-cased label through an ordered chain: a label
containing "energy" assigns BOTH `energy_kj_100g` and `energy_kcal_100g`
from the single value cell; "saturated fat", "sugars", "fiber", "proteins"
and "salt" are case-insensitive substring matches; but "fat" and
"carbohydrates" require the whole label to equal the nutrient name (with
"protein" also accepted exactly), and a row matching none of the branches
assigns nothing. -/
theorem c3_nutrition_row_dispatch (label value : String) (r : ProductRecord) :
    (containsSub "energy" (strLower label) = true →
      processNutritionRow r (trRow label value) =
        { r with energy_kj_100g := (parse_energy value).1
                 energy_kcal_100g := (parse_energy value).2 })
  ∧ (containsSub "energy" (strLower label) = false → strLower label = "fat" →
      processNutritionRow r (trRow label value) = { r with fat_100g := parse_float value })
  ∧ (containsSub "energy" (strLower label) = false → strLower label ≠ "fat" →
      containsSub "saturated fat" (strLower label) = true →
      processNutritionRow r (trRow label value) =
        { r with saturated_fat_100g := parse_float value })
  ∧ (containsSub "energy" (strLower label) = false → strLower label ≠ "fat" →
      containsSub "saturated fat" (strLower label) = false →
      strLower label = "carbohydrates" →
      processNutritionRow r (trRow label value) =
        { r with carbohydrates_100g := parse_float value })
  ∧ (containsSub "energy" (strLower label) = false → strLower label ≠ "fat" →
      containsSub "saturated fat" (strLower label) = false →
      strLower label ≠ "carbohydrates" →
      containsSub "sugars" (strLower label) = true →
      processNutritionRow r (trRow label value) =
        { r with sugars_100g := parse_float value })
  ∧ (containsSub "energy" (strLower label) = false → strLower label ≠ "fat" →
      containsSub "saturated fat" (strLower label) = false →
      strLower label ≠ "carbohydrates" →
      containsSub "sugars" (strLower label) = false →
      containsSub "fiber" (strLower label) = true →
      processNutritionRow r (trRow label value) =
        { r with fiber_100g := parse_float value })
  ∧ (containsSub "energy" (strLower label) = false → strLower label ≠ "fat" →
      containsSub "saturated fat" (strLower label) = false →
      strLower label ≠ "carbohydrates" →
      containsSub "sugars" (strLower label) = false →
      containsSub "fiber" (strLower label) = false →
      (containsSub "proteins" (strLower label) = true ∨ strLower label = "protein") →
      processNutritionRow r (trRow label value) =
        { r with proteins_100g := parse_float value })
  ∧ (containsSub "energy" (strLower label) = false → strLower label ≠ "fat" →
      containsSub "saturated fat" (strLower label) = false →
      strLower label ≠ "carbohydrates" →
      containsSub "sugars" (strLower label) = false →
      containsSub "fiber" (strLower label) = false →
      containsSub "proteins" (strLower label) = false → strLower label ≠ "protein" →
      containsSub "salt" (strLower label) = true →
      processNutritionRow r (trRow label value) =
        { r with salt_100g := parse_float value })
  ∧ (containsSub "energy" (strLower label) = false → strLower label ≠ "fat" →
      containsSub "saturated fat" (strLower label) = false →
      strLower label ≠ "carbohydrates" →
      containsSub "sugars" (strLower label) = false →
      containsSub "fiber" (strLower label) = false →
      containsSub "proteins" (strLower label) = false → strLower label ≠ "protein" →
      containsSub "salt" (strLower label) = false →
      processNutritionRow r (trRow label value) = r) := by
  rw [processRow_two]
  refine ⟨?_, ?_, ?_, ?_, ?_, ?_, ?_, ?_, ?_⟩
  · intro h1
    simp +decide [h1]
  · intro h1 h2
    simp +decide [h1, h2]
  · intro h1 h2 h3
    simp +decide [h1, beq_eq_false_iff_ne.mpr h2, h3]
  · intro h1 h2 h3 h4
    simp +decide [h1, beq_eq_false_iff_ne.mpr h2, h3, h4]
  · intro h1 h2 h3 h4 h5
    simp +decide [h1, beq_eq_false_iff_ne.mpr h2, h3, beq_eq_false_iff_ne.mpr h4, h5]
  · intro h1 h2 h3 h4 h5 h6
    simp +decide [h1, beq_eq_false_iff_ne.mpr h2, h3, beq_eq_false_iff_ne.mpr h4, h5, h6]
  · intro h1 h2 h3 h4 h5 h6 h7
    rcases h7 with h7 | h7 <;>
      simp +decide [h1, beq_eq_false_iff_ne.mpr h2, h3, beq_eq_false_iff_ne.mpr h4, h5,
        h6, h7]
  · intro h1 h2 h3 h4 h5 h6 h7 h8 h9
    simp +decide [h1, beq_eq_false_iff_ne.mpr h2, h3, beq_eq_false_iff_ne.mpr h4, h5, h6,
      h7, beq_eq_false_iff_ne.mpr h8, h9]
  · intro h1 h2 h3 h4 h5 h6 h7 h8 h9
    simp +decide [h1, beq_eq_false_iff_ne.mpr h2, h3, beq_eq_false_iff_ne.mpr h4, h5, h6,
      h7, beq_eq_false_iff_ne.mpr h8, h9]

theorem c3_witness :
    processNutritionRow baseRec (trRow "Energy" "100 kj") =
      { baseRec with energy_kj_100g := (parse_energy "100 kj").1
                     energy_kcal_100g := (parse_energy "100 kj").2 } :=
  (c3_nutrition_row_dispatch "Energy" "100 kj" baseRec).1 (by decide)

/-- The two-target unpacking on line 592 always fails: the value sequence
returned by `_parse_ecoscore_and_carbon` has three components, so
`scrape_product` raises `ValueError` on every document. -/
theorem scrape_product_unpack_err (url : String) (di : Bool) (dir : String)
    (soup : HNode) :
    scrape_product url di dir soup
      = Except.error "ValueError: too many values to unpack (expected 2)" := rfl

/-- C1: contrary to the claim that a parsed product document always yields
a `ProductRecord` with only `url` set (for a minimal document), the tuple
returned by `_parse_ecoscore_and_carbon` is NOT consumed without error:
it has three components but is unpacked into two targets on line 592, so
`scrape_product` raises `ValueError` for every document — including the
minimal one — and never returns a record. -/
theorem c1_scrape_product_always_raises (url : String) (di : Bool) (dir : String)
    (soup : HNode) :
    scrape_product url di dir soup
      = Except.error "ValueError: too many values to unpack (expected 2)" :=
  scrape_product_unpack_err url di dir soup

/-- One step of the page loop, by definition. -/
theorem runPages_cons (fetch : Nat → Except String (List String))
    (getSoup : String → Except String HNode) (di : Bool) (dir : String)
    (p : Nat) (ps : List Nat) (st : ScrapeState) :
    runPages fetch getSoup di dir (p :: ps) st =
      (match fetch p with
       | Except.error _ => st
       | Except.ok [] => st
       | Except.ok (u :: us) =>
         runPages fetch getSoup di dir ps
           ((u :: us).foldl (processUrl getSoup di dir) st)) := rfl

/-- C6: if fetching the listing for page `p` raises or returns an empty
list, the page loop of `scrape_snacks_dataset` stops at `p`: starting at
`p` it returns the state collected so far unchanged; for any pagination
the pages after `p` never contribute — the run behaves exactly like the
run truncated before `p` — and a whole `scrape_snacks_dataset` run that
starts at `p` terminates with no records and no error. -/
theorem c6_listing_failure_stops (fetch : Nat → Except String (List String))
    (getSoup : String → Except String HNode) (di : Bool) (dir : String) (p : Nat)
    (hbad : (∃ e, fetch p = Except.error e) ∨ fetch p = Except.ok []) :
    (∀ (l2 : List Nat) (st : ScrapeState),
        runPages fetch getSoup di dir (p :: l2) st = st)
  ∧ (∀ (l1 l2 : List Nat) (st : ScrapeState),
        runPages fetch getSoup di dir (l1 ++ p :: l2) st
          = runPages fetch getSoup di dir l1 st)
  ∧ (∀ (mp n : Nat),
        scrape_snacks_dataset fetch getSoup mp di dir p (some n) = []) := by
  have h1 : ∀ (l2 : List Nat) (st : ScrapeState),
      runPages fetch getSoup di dir (p :: l2) st = st := by
    intro l2 st
    rcases hbad with ⟨e, he⟩ | he <;> rw [runPages_cons, he]
  refine ⟨h1, ?_, ?_⟩
  · intro l1
    induction l1 with
    | nil =>
      intro l2 st
      exact h1 l2 st
    | cons q l1t ih =>
      intro l2 st
      rw [List.cons_append, runPages_cons, runPages_cons]
      cases hq : fetch q with
      | error e => rfl
      | ok urls =>
        cases urls with
        | nil => rfl
        | cons u us => exact ih l2 _
  · intro mp n
    have hsplit : max p (p + n - 1) + 1 - p = (max p (p + n - 1) - p) + 1 := by omega
    show (runPages fetch getSoup di dir
        (List.range' p (max p (p + n - 1) + 1 - p))
        { products := [], seen := [] }).products = []
    rw [hsplit, List.range'_succ, h1]

theorem c6_witness :
    runPages (fun _ => Except.ok []) (fun _ => Except.error "network down") false
        "product_images" [3, 4] { products := [], seen := [] }
      = { products := [], seen := [] } :=
  (c6_listing_failure_stops (fun _ => Except.ok []) (fun _ => Except.error "network down")
    false "product_images" 3 (Or.inr rfl)).1 [4] { products := [], seen := [] }

theorem processUrl_products (g : String → Except String HNode) (di : Bool)
    (dir : String) (st : ScrapeState) (u : String) :
    (processUrl g di dir st u).products = st.products := by
  cases hb : st.seen.contains u with
  | true =>
    have hm : u ∈ st.seen := by simpa using hb
    simp [processUrl, hm]
  | false =>
    have hm : u ∉ st.seen := by simpa using hb
    cases hg : g u with
    | error e => simp [processUrl, hm, hg]
    | ok soup => simp [processUrl, hm, hg, scrape_product_unpack_err]

theorem foldl_processUrl_products (g : String → Except String HNode) (di : Bool)
    (dir : String) :
    ∀ (urls : List String) (st : ScrapeState),
      (urls.foldl (processUrl g di dir) st).products = st.products := by
  intro urls
  induction urls with
  | nil => intro st; rfl
  | cons u us ih =>
    intro st
    rw [List.foldl_cons, ih, processUrl_products]

theorem runPages_products (fetch : Nat → Except String (List String))
    (g : String → Except String HNode) (di : Bool) (dir : String) :
    ∀ (pages : List Nat) (st : ScrapeState),
      (runPages fetch g di dir pages st).products = st.products := by
  intro pages
  induction pages with
  | nil => intro st; rfl
  | cons p ps ih =>
    intro st
    rw [runPages_cons]
    cases hf : fetch p with
    | error e => rfl
    | ok urls =>
      cases urls with
      | nil => rfl
      | cons u us =>
        show (runPages fetch g di dir ps
            ((u :: us).foldl (processUrl g di dir) st)).products = st.products
        rw [ih, foldl_processUrl_products]

/-- C7: in any single run of `scrape_snacks_dataset` the `url` fields of
the returned records are pairwise distinct, whatever the listing and page
oracles return (the seen-set is initialised empty inside the call, so no
dedup state crosses runs; and since `scrape_product` currently raises on
every document, the record list is in fact empty). -/
theorem c7_dataset_urls_nodup (fetch : Nat → Except String (List String))
    (getSoup : String → Except String HNode) (mp : Nat) (di : Bool) (dir : String)
    (sp : Nat) (pts : Option Nat) :
    ((scrape_snacks_dataset fetch getSoup mp di dir sp pts).map
        (fun r => r.url)).Nodup := by
  unfold scrape_snacks_dataset
  rw [runPages_products]
  simp

theorem dOptStr_enc (x : Option String) : dOptStr (jOptStr x) = some x := by
  cases x <;> rfl

theorem dOptQ_enc (x : Option ℚ) : dOptQ (jOptQ x) = some x := by
  cases x <;> rfl

theorem dOptInt_enc (x : Option Int) : dOptInt (jOptInt x) = some x := by
  cases x with
  | none => rfl
  | some n => simp [jOptInt, dOptInt]

theorem dOptBool_enc (x : Option Bool) : dOptBool (jOptBool x) = some x := by
  cases x <;> rfl

theorem dStrs_enc : ∀ l : List String, dStrs (l.map Json.jstr) = some l := by
  intro l
  induction l with
  | nil => rfl
  | cons s r ih => simp [dStrs, dStr, ih]

theorem dStrList_enc (l : List String) :
    dStrList (Json.jarr (l.map Json.jstr)) = some l := by
  simp [dStrList, dStrs_enc]

theorem dField_hit (key : String) (j : Json) (r : List (String × Json)) :
    dField key ((key, j) :: r) = some (j, r) := by
  simp [dField]

theorem recordOfJson_asdict (r : ProductRecord) :
    recordOfJson (asdictJson r) = some r := by
  simp [asdictJson, recordOfJson, dField_hit, dStr, popField,
    decodeFields1, decodeFields2, decodeFields3, decodeFields4, decodeFields5,
    dOptStr_enc, dOptQ_enc, dOptInt_enc, dOptBool_enc, dStrList_enc]

theorem recordsOfJson_enc : ∀ rs : List ProductRecord,
    recordsOfJson (rs.map asdictJson) = some rs := by
  intro rs
  induction rs with
  | nil => rfl
  | cons r rest ih => simp [recordsOfJson, recordOfJson_asdict, ih]

/-- C9: the JSON value that `save_to_json` dumps for a record list reloads
to the very same records, field for field — every field type of the record
(strings, floats, the int, the bool, the additives list, and every null)
round-trips through the encoding. -/
theorem c9_json_roundtrip (records : List ProductRecord) :
    jsonLoadRecords (saveToJsonValue records) = some records := by
  simp only [saveToJsonValue, jsonLoadRecords]
  exact recordsOfJson_enc records

/-- C8 counterexample: when the target file already exists (here: empty),
both append-mode calls take the append path and never write a header, so
the file ends with the 2×N data rows and no header row at all — not with
"exactly one header row followed by the data rows" as claimed for an
existing file. -/
theorem c8_counterexample :
    (save_to_csv [baseRec] "out.csv" true
        (save_to_csv [baseRec] "out.csv" true fsEmptyCsv)) "out.csv"
      = some [csvRow baseRec, csvRow baseRec]
    ∧ csvRow baseRec ≠ csvHeader := by
  constructor
  · have h1 : (save_to_csv [baseRec] "out.csv" true fsEmptyCsv) "out.csv"
        = some [csvRow baseRec] := by
      simp [save_to_csv, fsEmptyCsv]
    simp [save_to_csv, h1, fsEmptyCsv]
  · decide

/-- C8 (amended): starting from a path at which no file exists, calling
`save_to_csv` twice with `append=True` on a non-empty record list yields a
file with exactly one header row followed by the 2×N data rows — the first
call creates the file and writes the header, the second appends the rows
without a header. -/
theorem c8_append_twice (records : List ProductRecord) (path : String) (fs : FileSys)
    (hne : records ≠ []) (habs : fs path = none) :
    (save_to_csv records path true (save_to_csv records path true fs)) path
        = some (csvHeader :: (records.map csvRow ++ records.map csvRow))
    ∧ ((save_to_csv records path true (save_to_csv records path true fs)) path).map
        List.length = some (1 + 2 * records.length) := by
  obtain ⟨r0, rest, rfl⟩ : ∃ a b, records = a :: b := by
    cases records with
    | nil => exact absurd rfl hne
    | cons a b => exact ⟨a, b, rfl⟩
  have h1 : (save_to_csv (r0 :: rest) path true fs) path
      = some (csvHeader :: (r0 :: rest).map csvRow) := by
    simp [save_to_csv, habs]
  have h2 : (save_to_csv (r0 :: rest) path true (save_to_csv (r0 :: rest) path true fs))
      path = some (csvHeader :: ((r0 :: rest).map csvRow ++ (r0 :: rest).map csvRow)) := by
    simp [save_to_csv, h1, habs]
  refine ⟨h2, ?_⟩
  rw [h2]
  simp [Nat.mul_comm, Nat.two_mul]
  omega

theorem c8_witness :
    (save_to_csv [baseRec] "out.csv" true
        (save_to_csv [baseRec] "out.csv" true fsNone)) "out.csv"
      = some (csvHeader :: ([baseRec].map csvRow ++ [baseRec].map csvRow))
    ∧ ((save_to_csv [baseRec] "out.csv" true
        (save_to_csv [baseRec] "out.csv" true fsNone)) "out.csv").map List.length
      = some (1 + 2 * ([baseRec] : List ProductRecord).length) :=
  c8_append_twice [baseRec] "out.csv" fsNone (List.cons_ne_nil baseRec []) rfl

/-- C10: `save_to_csv` on an empty record list is a no-op on the
filesystem, whatever the path, the append flag and the current files: it
neither creates nor truncates nor appends to anything. -/
theorem c10_save_csv_empty_noop (path : String) (append : Bool) (fs : FileSys) :
    save_to_csv [] path append fs = fs := rfl

end FoodFacts
